import Mathlib

/-
Verification of the per-repository auto-merge engine:
shallow embedding of `src/app/queue.py`, `src/app/worker.py`,
`src/app/main.py` and `src/app/github.py` (queue state, lease,
merge state-machine classification, webhook signature gate),
with theorems settling the behavioural claims about them.
Wall-clock instants are modelled as naturals (seconds).
-/

namespace AutoMerge

/-- Modelled from the spec: the settings object read by the core.
`max_backoff_seconds` and `redis_lock_ttl_seconds` mirror the
assignments in `config.py` `Settings.__init__`; the fields
`backoff_base_seconds`, `backoff_factor`, `max_retries` and
`max_item_window_seconds` are read from `SETTINGS` by `main.py`
(`_drain_repo`) and `queue.py` (`requeue_with_backoff`) but are not
assigned in the provided `config.py`, so they are modelled as the
environment-provided integers listed in section 6 of the spec. -/
structure Settings where
  backoff_base_seconds : Nat
  backoff_factor : Nat
  max_retries : Nat
  max_item_window_seconds : Nat
  max_backoff_seconds : Nat
  redis_lock_ttl_seconds : Nat
  deriving DecidableEq, Repr

/-- Queue item as serialized by `queue.py` `enqueue`:
`{"number", "sender", "ts", "retries", "not_before"}`. -/
structure Item where
  number : Nat
  sender : Option String
  ts : Nat
  retries : Nat
  not_before : Nat
  deriving DecidableEq, Repr

/-- Store state for one `(installation, owner, repo)`: the `queue:` list,
the `dedupe:` set and the `dlq:` list of `queue.py`.  The metrics and the
`:meta first_ts` bookkeeping of `update_gauges` touch no queue, dedupe or
dead-letter state and are not modelled. -/
structure QState where
  items : List Item
  dedupe : Finset Nat
  dlq : List Item
  deriving DecidableEq

/-- `Queue.enqueue` (queue.py:119-159) with the Redis pipeline succeeding:
return `False` without touching the store when the number is already in the
dedupe set, else push the payload to the tail, `SADD` the number, and
return `True`. -/
def enqueue (now : Nat) (st : QState) (number : Nat) (sender : Option String)
    (retries : Nat) (not_before : Nat) : Bool × QState :=
  if number ∈ st.dedupe then
    (false, st)
  else
    (true, { st with
      items := st.items ++ [⟨number, sender, now, retries, not_before⟩],
      dedupe := insert number st.dedupe })

/-- `Queue.pop` (queue.py:161-199): `LPOP` the head; on an empty list return
`None`; if the item's `not_before` is nonzero and in the future push it back
to the tail leaving the dedupe set alone and return `None`; otherwise `SREM`
the number from the dedupe set and return the item. -/
def pop (now : Nat) (st : QState) : Option Item × QState :=
  match st.items with
  | [] => (none, st)
  | item :: rest =>
    if item.not_before ≠ 0 ∧ now < item.not_before then
      (none, { st with items := rest ++ [item] })
    else
      (some item, { st with items := rest, dedupe := st.dedupe.erase item.number })

/-- `Queue.requeue_with_backoff` (queue.py:227-243): bump `retries`, set
`not_before` to now plus `base * factor^(retries-1)` capped at
`max_backoff_seconds`, push to the tail and re-add to the dedupe set. -/
def requeue_with_backoff (S : Settings) (now : Nat) (st : QState) (item : Item) : QState :=
  let retries := item.retries + 1
  let delay := min (S.backoff_base_seconds * S.backoff_factor ^ (retries - 1)) S.max_backoff_seconds
  let item2 := { item with retries := retries, not_before := now + delay }
  { st with items := st.items ++ [item2], dedupe := insert item.number st.dedupe }

/-- `Queue.send_to_dead_letter` (queue.py:245-252): push the item to the
`dlq:` list. -/
def send_to_dead_letter (st : QState) (item : Item) : QState :=
  { st with dlq := st.dlq ++ [item] }

/-- `Queue.requeue_tail` (queue.py:59-67): push to the tail and re-add to the
dedupe set without touching `retries` or `not_before`. -/
def requeue_tail (st : QState) (item : Item) : QState :=
  { st with items := st.items ++ [item], dedupe := insert item.number st.dedupe }

/-- The per-repo lease key: `some (worker_id, ttl)` when present. -/
abbrev Lease := Option (String × Nat)

/-- `Queue.refresh_lock` (queue.py:276-291), the Lua script
`if get(key) == worker_id then expire(key, ttl) else 0`: extend the TTL and
return true only when the stored value equals the caller's worker id. -/
def refresh_lock (ttl : Nat) (ls : Lease) (worker_id : String) : Bool × Lease :=
  match ls with
  | none => (false, none)
  | some (v, t) =>
    if v = worker_id then (true, some (v, ttl)) else (false, some (v, t))

/-- `Queue.release_lock` (queue.py:293-308), the Lua script
`if get(key) == worker_id then del(key) else 0`: delete the key only when the
stored value equals the caller's worker id, silently otherwise. -/
def release_lock (ls : Lease) (worker_id : String) : Lease :=
  match ls with
  | none => none
  | some (v, t) =>
    if v = worker_id then none else some (v, t)

/-- Repo configuration, exactly the fields of `Config` in `models.py`
(`merge_method` is a `Literal` string there). -/
structure Config where
  label : String
  merge_method : String
  update_branch : Bool
  require_up_to_date : Bool
  allow_merge_when_no_checks : Bool
  max_wait_minutes : Nat
  poll_interval_seconds : Nat
  title_template : String
  body_template : String
  deriving DecidableEq, Repr

/-- The default `Config` values of `models.py`. -/
def cfgDefault : Config :=
  { label := "automerge"
    merge_method := "squash"
    update_branch := true
    require_up_to_date := true
    allow_merge_when_no_checks := true
    max_wait_minutes := 60
    poll_interval_seconds := 10
    title_template := "{title} (#{number})"
    body_template := "{body}\n\nAuto-merged by Auto Merge Bot for PR #{number}" }

/-- The field names of `Config` in `models.py` (`Config.model_fields`), the
set `load_config` (worker.py:43-54) filters user-supplied keys against. -/
def config_model_fields : List String :=
  ["label", "merge_method", "update_branch", "require_up_to_date",
   "allow_merge_when_no_checks", "max_wait_minutes", "poll_interval_seconds",
   "title_template", "body_template"]

/-- One entry of `combined["statuses"]` in the combined commit status. -/
structure StatusEntry where
  context : String
  state : String
  deriving DecidableEq, Repr

/-- One check suite; GitHub reports `conclusion: null` for an unfinished
suite, hence the option. -/
structure CheckSuite where
  conclusion : Option String
  deriving DecidableEq, Repr

/-- `are_checks_green` (worker.py:57-75), with the two API reads supplied as
arguments: when there are no statuses and no suites return
`allow_merge_when_no_checks`; otherwise the combined state must be
`success` or `neutral` and every suite conclusion must be `success` or
`neutral`. -/
def are_checks_green (combined_state : String) (statuses : List StatusEntry)
    (suites : List CheckSuite) (cfg : Config) : Bool :=
  if statuses.isEmpty && suites.isEmpty then
    cfg.allow_merge_when_no_checks
  else if ¬ (combined_state = "success" ∨ combined_state = "neutral") then
    false
  else
    suites.all fun s => decide (s.conclusion = some "success" ∨ s.conclusion = some "neutral")

/-- The pull-request fields read by `evaluate_mergeability` (worker.py:78-105);
`labels` holds the label names. -/
structure PR where
  number : Nat
  draft : Bool
  locked : Bool
  labels : List String
  mergeable_state : String
  mergeable : Option Bool
  head_sha : String
  deriving DecidableEq, Repr

/-- `evaluate_mergeability` (worker.py:78-105), with the fetched PR and the
check reads for its head SHA supplied as arguments. -/
def evaluate_mergeability (cfg : Config) (pr? : Option PR) (combined_state : String)
    (statuses : List StatusEntry) (suites : List CheckSuite) : Bool × String :=
  match pr? with
  | none => (false, "failed_to_fetch")
  | some pr =>
    if pr.draft then (false, "draft")
    else if pr.locked then (false, "locked")
    else if ¬ cfg.label ∈ pr.labels then (false, "missing_label")
    else if cfg.require_up_to_date ∧ (pr.mergeable_state = "behind" ∨ pr.mergeable_state = "blocked") then
      (false, "behind_or_blocked:" ++ pr.mergeable_state)
    else if ¬ are_checks_green combined_state statuses suites cfg then
      (false, "checks_not_green")
    else if pr.mergeable = some false then
      (false, "mergeable_false:" ++ pr.mergeable_state)
    else (true, "mergeable")

/-- Observable calls made by the checks-waiting loop: a greenness poll, or an
invocation of the lease-heartbeat callback. -/
inductive WaitEvent where
  | poll
  | heartbeat
  deriving DecidableEq, Repr

/-- The loop body of `wait_for_checks` (worker.py:108-114): while the clock is
before the deadline, poll greenness (the k-th poll answered by `green k`) and
on failure sleep `max(5, poll_interval_seconds)`.  The returned list records
every call the loop makes; the source body contains no heartbeat call. -/
def wait_loop (green : Nat → Bool) (step : Nat) (k : Nat) (t : Nat) (deadline : Nat) :
    Bool × List WaitEvent :=
  if t < deadline then
    if green k then (true, [WaitEvent.poll])
    else
      let r := wait_loop green step (k + 1) (t + max 5 step) deadline
      (r.1, WaitEvent.poll :: r.2)
  else (false, [])
  termination_by deadline - t
  decreasing_by
    have h5 : 5 ≤ max 5 step := Nat.le_max_left 5 step
    omega

/-- `wait_for_checks` (worker.py:108-114): deadline is entry time plus
`max_wait_minutes * 60`. -/
def wait_for_checks_trace (green : Nat → Bool) (cfg : Config) (start : Nat) :
    Bool × List WaitEvent :=
  wait_loop green cfg.poll_interval_seconds 0 start (start + cfg.max_wait_minutes * 60)

/-- The parameter names of `process_item` (worker.py:117). -/
def process_item_params : List String :=
  ["gh", "owner", "repo", "number"]

/-- `GitHubClient.merge_pr` (github.py:338-353): 200/201 yield success with a
`Merged PR #n via method` message; any other status yields failure with the
message `Merge failed for PR #n: status payload`. -/
def merge_pr_result (status : Nat) (number : Nat) (method : String) (payload : String) :
    Bool × String :=
  if status = 200 ∨ status = 201 then
    (true, "Merged PR #" ++ toString number ++ " via " ++ method)
  else
    (false, "Merge failed for PR #" ++ toString number ++ ": " ++ toString status ++ " " ++ payload)

/-- Python `str.startswith`, on the character lists of the strings. -/
def strStarts (pat s : String) : Bool :=
  pat.toList.isPrefixOf s.toList

/-- Helper for substring search: does `pat` occur in `s` (contiguously)? -/
def hasSub : List Char → List Char → Bool
  | _, [] => true
  | [], _ :: _ => false
  | s :: srest, pat =>
    if pat.isPrefixOf (s :: srest) then true else hasSub srest pat

/-- Python `pat in s` substring containment, on character lists. -/
def strContains (s pat : String) : Bool :=
  hasSub s.toList pat.toList

/-- The transient-reason test of `_drain_repo` (main.py:183-187):
`reason.startswith("checks_timeout") or "checks_not_green" in reason or
reason.startswith("failed_to_fetch")`. -/
def transientReason (reason : String) : Bool :=
  strStarts "checks_timeout" reason || strContains reason "checks_not_green" ||
    strStarts "failed_to_fetch" reason

/-- The outcome of one `process_item` invocation as seen by `_drain_repo`:
either an uncaught exception or a returned `(ok, msg)` pair. -/
inductive ProcOutcome where
  | exn
  | res (ok : Bool) (msg : String)
  deriving DecidableEq, Repr

/-- Per-iteration environment of the drain loop: the `process_item` outcome,
the elapsed wall time of the iteration, and the result of the post-item
`refresh_lock`. -/
structure IterEnv where
  proc : ProcOutcome
  elapsed : Nat
  refresh_ok : Bool
  deriving DecidableEq, Repr

/-- The drain loop of `_drain_repo` (main.py:141-200), one `IterEnv` per
iteration allowed: pop (stop on empty); on an uncaught exception classify as
transient (dead-letter when `retries + 1 >= max_retries`, else requeue with
backoff) and continue; on a returned failure apply the starvation tail-requeue
when the elapsed time exceeded `max_item_window_seconds`, else requeue/DLQ
when the reason is transient, else drop; stop when the lock refresh fails. -/
def drain_loop (S : Settings) (now : Nat) (envs : List IterEnv) (st : QState) : QState :=
  match envs with
  | [] => st
  | e :: rest =>
    match pop now st with
    | (none, st1) => st1
    | (some item, st1) =>
      match e.proc with
      | ProcOutcome.exn =>
        let st2 :=
          if S.max_retries ≤ item.retries + 1 then send_to_dead_letter st1 item
          else requeue_with_backoff S now st1 item
        if e.refresh_ok then drain_loop S now rest st2 else st2
      | ProcOutcome.res ok msg =>
        let st2 :=
          if ok = false ∧ S.max_item_window_seconds < e.elapsed then
            requeue_tail st1 item
          else if ok = false then
            if transientReason msg then
              if S.max_retries ≤ item.retries + 1 then send_to_dead_letter st1 item
              else requeue_with_backoff S now st1 item
            else st1
          else st1
        if e.refresh_ok then drain_loop S now rest st2 else st2

/-- Python `signature256.split("=", 1)`: `none` when the character list holds
no `'='` (the `ValueError` branch), else the parts before and after the first
`'='`. -/
def splitEq1 : List Char → Option (List Char × List Char)
  | [] => none
  | c :: rest =>
    if c = '=' then some ([], rest)
    else
      match splitEq1 rest with
      | none => none
      | some (a, b) => some (c :: a, b)

/-- `verify_signature` (main.py:45-56), with the HMAC-SHA256 hex digest
abstracted as `mac secret body`: reject a missing or empty header, a header
without `'='`, an algorithm tag other than `sha256`, or a digest mismatch. -/
def verify_signature (mac : String → String → String) (secret body : String)
    (signature256 : Option String) : Bool :=
  match signature256 with
  | none => false
  | some s =>
    if s = "" then false
    else
      match splitEq1 s.toList with
      | none => false
      | some (algo, sig) =>
        algo == "sha256".toList && (mac secret body).toList == sig

/-- The status code computed by the `webhook` handler (main.py:206-264), with
the JSON parse of the body abstracted as `parse` and `secret` the resolved
webhook secret: 401 when the secret is empty or the signature fails, then 400
when the body fails to parse, else 202 (both the no-identities and the
enqueued paths return 202). -/
def webhook_status (mac : String → String → String) (parse : String → Bool)
    (secret body : String) (signature256 : Option String) : Nat :=
  if secret = "" ∨ verify_signature mac secret body signature256 = false then 401
  else if parse body = false then 400
  else 202

/-- Concrete settings for witnesses: base 5 s, factor 2, 5 retries, 1800 s
item window, 120 s backoff cap, 60 s lock TTL (the defaults suggested in
section 9 of the spec). -/
def Sc : Settings := ⟨5, 2, 5, 1800, 120, 60⟩

/-- Concrete digest function for the webhook witnesses. -/
def macC : String → String → String := fun _ _ => "deadbeef"

/-- Concrete body parser for the webhook witnesses: every body fails to
parse. -/
def parseC : String → Bool := fun _ => false

theorem pop_cons_ready (now : Nat) (item : Item) (tl : List Item) (de : Finset Nat)
    (dl : List Item) (h : item.not_before ≤ now) :
    pop now ⟨item :: tl, de, dl⟩ = (some item, ⟨tl, de.erase item.number, dl⟩) := by
  have hcond : ¬ (item.not_before ≠ 0 ∧ now < item.not_before) := by omega
  simp [pop, hcond]

theorem splitEq1_some {l a b : List Char} (h : splitEq1 l = some (a, b)) :
    l = a ++ '=' :: b ∧ '=' ∉ a := by
  induction l generalizing a b with
  | nil => simp [splitEq1] at h
  | cons c rest ih =>
    by_cases hc : c = '='
    · subst hc
      simp [splitEq1] at h
      obtain ⟨ha, hb⟩ := h
      subst ha; subst hb
      simp
    · rw [splitEq1, if_neg hc] at h
      cases hs : splitEq1 rest with
      | none => rw [hs] at h; simp at h
      | some p =>
        obtain ⟨a2, b2⟩ := p
        rw [hs] at h
        simp at h
        obtain ⟨ha, hb⟩ := h
        subst ha; subst hb
        obtain ⟨h1, h2⟩ := ih hs
        subst h1
        refine ⟨by simp, ?_⟩
        intro hmem
        rcases List.mem_cons.mp hmem with hcon | hcon
        · exact hc hcon.symm
        · exact h2 hcon

theorem wait_loop_no_heartbeat (green : Nat → Bool) (step : Nat) :
    ∀ (n k t d : Nat), d - t ≤ n →
      WaitEvent.heartbeat ∉ (wait_loop green step k t d).2 := by
  intro n
  induction n with
  | zero =>
    intro k t d h
    rw [wait_loop]
    have htd : ¬ t < d := by omega
    simp [htd]
  | succ m ih =>
    intro k t d h
    rw [wait_loop]
    by_cases htd : t < d
    · by_cases hg : green k
      · simp [htd, hg]
      · have h5 : 5 ≤ max 5 step := Nat.le_max_left 5 step
        have hrec := ih (k + 1) (t + max 5 step) d (by omega)
        simp [htd, hg]
        exact fun hcon => hrec hcon
    · simp [htd]

/-- C1: the claim says `are_checks_green` treats a `skipped` check-suite
conclusion as green.  The code (worker.py:72) accepts only `success` and
`neutral`, so a lone `skipped` suite under a successful combined status is
reported not green, while the claim, spec section 4.6 and
tests/test_skipped_checks.py require green; the failure half of the claim (a
`failure` suite blocks even next to skipped ones) does hold. -/
theorem C1_skipped_not_green :
    are_checks_green "success" [⟨"ci", "success"⟩] [⟨some "skipped"⟩] cfgDefault = false ∧
    are_checks_green "success" [⟨"ci", "success"⟩] [⟨some "success"⟩] cfgDefault = true ∧
    are_checks_green "success" [⟨"ci", "success"⟩] [⟨some "skipped"⟩, ⟨some "failure"⟩]
      cfgDefault = false := by
  decide

/-- C2: an uncaught exception from `process_item` does not escape the drain
loop: the iteration dead-letters the item when `retries + 1 ≥ max_retries`,
requeues it with backoff otherwise, and the loop goes on draining (stopping
only if the subsequent lock refresh fails). -/
theorem C2_exception_classified (S : Settings) (now : Nat) (st : QState) (item : Item)
    (tl : List Item) (e : Nat) (r : Bool) (rest : List IterEnv)
    (hhead : st.items = item :: tl) (hready : item.not_before ≤ now) :
    let stPop : QState := ⟨tl, st.dedupe.erase item.number, st.dlq⟩
    let st2 : QState :=
      if S.max_retries ≤ item.retries + 1 then send_to_dead_letter stPop item
      else requeue_with_backoff S now stPop item
    drain_loop S now (⟨ProcOutcome.exn, e, r⟩ :: rest) st
      = (if r then drain_loop S now rest st2 else st2) ∧
    (S.max_retries ≤ item.retries + 1 → st2.dlq = st.dlq ++ [item] ∧ st2.items = tl) ∧
    (item.retries + 1 < S.max_retries →
      st2.items = tl ++ [Item.mk item.number item.sender item.ts (item.retries + 1)
        (now + min (S.backoff_base_seconds * S.backoff_factor ^ item.retries)
          S.max_backoff_seconds)] ∧ st2.dlq = st.dlq) := by
  obtain ⟨its, de, dl⟩ := st
  simp only at hhead
  subst hhead
  refine ⟨?_, ?_, ?_⟩
  · simp only [drain_loop, pop_cons_ready now item tl de dl hready]
  · intro h
    simp [if_pos h, send_to_dead_letter]
  · intro h
    have hneg : ¬ S.max_retries ≤ item.retries + 1 := by omega
    simp [hneg, requeue_with_backoff]

theorem C2_witness :
    (drain_loop Sc 100 [⟨ProcOutcome.exn, 0, true⟩] ⟨[⟨7, none, 0, 0, 0⟩], {7}, []⟩).items
      = [⟨7, none, 0, 1, 105⟩] := by
  obtain ⟨h1, h2, h3⟩ := C2_exception_classified Sc 100 ⟨[⟨7, none, 0, 0, 0⟩], {7}, []⟩
    ⟨7, none, 0, 0, 0⟩ [] 0 true [] rfl (by decide)
  rw [h1]
  decide

/-- C3 counterexample to the claim as stated: a failed merge API call (HTTP
405) returns the message built by `merge_pr` (github.py:353), which the
drain loop's transient test (main.py:183-187) does not match, so the item is
neither requeued nor dead-lettered: the final state is empty.  The claim says
a merge API error is retried and finally dead-lettered, never silently
dropped. -/
theorem C3_merge_error_dropped :
    drain_loop Sc 100
      [⟨ProcOutcome.res false (merge_pr_result 405 7 "squash" "Base branch was modified").2,
        0, true⟩]
      ⟨[⟨7, none, 0, 0, 0⟩], {7}, []⟩ = ⟨[], ∅, []⟩ := by
  decide

/-- C3 as amended: a returned failure whose reason starts with
`checks_timeout` or `failed_to_fetch` or contains `checks_not_green` (which
covers `not_mergeable_after_update:checks_not_green`) is requeued with
backoff until `max_retries` and then dead-lettered; any other failure reason
— in particular `update_branch_failed:*` and the failed-merge-API message —
is consumed with no requeue and no dead-letter. -/
theorem C3_transient_classified (S : Settings) (now : Nat) (st : QState) (item : Item)
    (tl : List Item) (msg : String) (e : Nat) (r : Bool) (rest : List IterEnv)
    (hhead : st.items = item :: tl) (hready : item.not_before ≤ now)
    (hfast : e ≤ S.max_item_window_seconds) :
    let stPop : QState := ⟨tl, st.dedupe.erase item.number, st.dlq⟩
    let st2 : QState :=
      if transientReason msg then
        if S.max_retries ≤ item.retries + 1 then send_to_dead_letter stPop item
        else requeue_with_backoff S now stPop item
      else stPop
    drain_loop S now (⟨ProcOutcome.res false msg, e, r⟩ :: rest) st
      = (if r then drain_loop S now rest st2 else st2) ∧
    (transientReason msg = true → S.max_retries ≤ item.retries + 1 →
      st2.dlq = st.dlq ++ [item] ∧ st2.items = tl) ∧
    (transientReason msg = true → item.retries + 1 < S.max_retries →
      st2.items = tl ++ [Item.mk item.number item.sender item.ts (item.retries + 1)
        (now + min (S.backoff_base_seconds * S.backoff_factor ^ item.retries)
          S.max_backoff_seconds)] ∧ st2.dlq = st.dlq) ∧
    (transientReason msg = false → st2 = stPop) ∧
    transientReason "checks_timeout" = true ∧
    transientReason "checks_not_green" = true ∧
    transientReason "failed_to_fetch" = true ∧
    transientReason "not_mergeable_after_update:checks_not_green" = true ∧
    transientReason "update_branch_failed:behind_or_blocked:behind" = false ∧
    transientReason (merge_pr_result 405 7 "squash" "Base branch was modified").2 = false := by
  obtain ⟨its, de, dl⟩ := st
  simp only at hhead
  subst hhead
  refine ⟨?_, ?_, ?_, ?_, by decide, by decide, by decide, by decide, by decide, by decide⟩
  · simp only [drain_loop, pop_cons_ready now item tl de dl hready]
    have hs2 : ¬ S.max_item_window_seconds < e := by omega
    simp [hs2]
  · intro ht h
    simp [ht, if_pos h, send_to_dead_letter]
  · intro ht h
    have hneg : ¬ S.max_retries ≤ item.retries + 1 := by omega
    simp [ht, hneg, requeue_with_backoff]
  · intro ht
    simp [ht]

theorem C3_witness :
    (drain_loop Sc 100 [⟨ProcOutcome.res false "checks_not_green", 0, true⟩]
      ⟨[⟨8, none, 0, 4, 0⟩], {8}, []⟩).dlq = [⟨8, none, 0, 4, 0⟩] := by
  obtain ⟨h1, h2, h3, h4, hrest⟩ := C3_transient_classified Sc 100
    ⟨[⟨8, none, 0, 4, 0⟩], {8}, []⟩ ⟨8, none, 0, 4, 0⟩ [] "checks_not_green" 0 true []
    rfl (by decide) (by decide)
  rw [h1]
  decide

/-- C4: the claim says the required-label check is skipped when
`require_label` is false.  The code has no such option: `Config`
(models.py:29-41) lacks a `require_label` field — so `load_config`
(worker.py:53) discards a user-supplied `require_label` key — and
`evaluate_mergeability` (worker.py:87-88) rejects a PR missing the label for
every possible configuration, while tests/test_require_label.py expects the
merge to proceed. -/
theorem C4_label_always_required :
    (∀ (cfg : Config) (pr : PR) (cs : String) (sts : List StatusEntry)
        (suites : List CheckSuite),
      pr.draft = false → pr.locked = false → cfg.label ∉ pr.labels →
      evaluate_mergeability cfg (some pr) cs sts suites = (false, "missing_label")) ∧
    "require_label" ∉ config_model_fields := by
  constructor
  · intro cfg pr cs sts suites hd hl hlab
    simp [evaluate_mergeability, hd, hl, hlab]
  · decide

theorem C4_witness :
    evaluate_mergeability cfgDefault (some ⟨20, false, false, [], "clean", some true, "xyz"⟩)
      "success" [] [⟨some "success"⟩] = (false, "missing_label") :=
  C4_label_always_required.1 cfgDefault ⟨20, false, false, [], "clean", some true, "xyz"⟩
    "success" [] [⟨some "success"⟩] rfl rfl (by decide)

/-- C5: the claim says the heartbeat callback is invoked on every poll tick
of `wait_for_checks`.  The code's checks-waiting loop (worker.py:108-114)
performs poll ticks but never invokes any heartbeat — its trace contains no
heartbeat event — and `process_item` (worker.py:117) does not even take a
heartbeat parameter, though `_drain_repo` (main.py:158) passes one. -/
theorem C5_no_heartbeat_on_poll :
    (∀ (green : Nat → Bool) (cfg : Config) (start : Nat),
      WaitEvent.heartbeat ∉ (wait_for_checks_trace green cfg start).2) ∧
    "heartbeat" ∉ process_item_params ∧
    WaitEvent.poll ∈ (wait_for_checks_trace (fun _ => false) cfgDefault 0).2 := by
  refine ⟨?_, by decide, ?_⟩
  · intro green cfg start
    exact wait_loop_no_heartbeat green cfg.poll_interval_seconds _ 0 start _ le_rfl
  · rw [wait_for_checks_trace, wait_loop]
    norm_num [cfgDefault]

/-- C6: enqueue of a number already in the dedupe set leaves the whole state
(hence the queue length) unchanged and returns the dedup result `false`;
enqueue of a fresh number (with the store succeeding) returns `true`, grows
the queue by exactly one item, and puts the number into the dedupe set. -/
theorem C6_enqueue_dedupe (now : Nat) (st : QState) (n : Nat) (sender : Option String)
    (retries nb : Nat) :
    (n ∈ st.dedupe → enqueue now st n sender retries nb = (false, st)) ∧
    (n ∉ st.dedupe →
      (enqueue now st n sender retries nb).1 = true ∧
      (enqueue now st n sender retries nb).2.items.length = st.items.length + 1 ∧
      n ∈ (enqueue now st n sender retries nb).2.dedupe) := by
  constructor
  · intro h
    simp [enqueue, h]
  · intro h
    simp [enqueue, h]

theorem C6_witness :
    enqueue 50 ⟨[⟨3, none, 1, 0, 0⟩], {3}, []⟩ 3 none 0 0
      = (false, ⟨[⟨3, none, 1, 0, 0⟩], {3}, []⟩) ∧
    ((enqueue 50 ⟨[], ∅, []⟩ 4 none 0 0).1 = true ∧
      (enqueue 50 ⟨[], ∅, []⟩ 4 none 0 0).2.items.length = 0 + 1 ∧
      4 ∈ (enqueue 50 ⟨[], ∅, []⟩ 4 none 0 0).2.dedupe) :=
  ⟨(C6_enqueue_dedupe 50 ⟨[⟨3, none, 1, 0, 0⟩], {3}, []⟩ 3 none 0 0).1 (by decide),
   (C6_enqueue_dedupe 50 ⟨[], ∅, []⟩ 4 none 0 0).2 (by decide)⟩

/-- C7: popping a head item whose `not_before` lies in the future returns
none, moves that very item (all fields unchanged) to the tail and leaves the
dedupe set alone; popping a head item whose `not_before` has passed returns
the item and removes its number from the dedupe set. -/
theorem C7_pop_defer (now : Nat) (st : QState) (item : Item) (tl : List Item)
    (hhead : st.items = item :: tl) :
    (now < item.not_before →
      (pop now st).1 = none ∧ (pop now st).2.items = tl ++ [item] ∧
      (pop now st).2.dedupe = st.dedupe) ∧
    (item.not_before ≤ now →
      (pop now st).1 = some item ∧ (pop now st).2.items = tl ∧
      item.number ∉ (pop now st).2.dedupe) := by
  obtain ⟨its, de, dl⟩ := st
  simp only at hhead
  subst hhead
  constructor
  · intro h
    have hcond : item.not_before ≠ 0 ∧ now < item.not_before := ⟨by omega, h⟩
    simp [pop, hcond]
  · intro h
    rw [pop_cons_ready now item tl de dl h]
    simp [Finset.not_mem_erase]

theorem C7_witness :
    ((pop 10 ⟨[⟨3, none, 1, 0, 50⟩], {3}, []⟩).1 = none ∧
     (pop 10 ⟨[⟨3, none, 1, 0, 50⟩], {3}, []⟩).2.items = [] ++ [⟨3, none, 1, 0, 50⟩] ∧
     (pop 10 ⟨[⟨3, none, 1, 0, 50⟩], {3}, []⟩).2.dedupe = {3}) ∧
    ((pop 10 ⟨[⟨4, none, 1, 0, 5⟩], {4}, []⟩).1 = some ⟨4, none, 1, 0, 5⟩ ∧
     (pop 10 ⟨[⟨4, none, 1, 0, 5⟩], {4}, []⟩).2.items = [] ∧
     (4 : Nat) ∉ (pop 10 ⟨[⟨4, none, 1, 0, 5⟩], {4}, []⟩).2.dedupe) :=
  ⟨(C7_pop_defer 10 ⟨[⟨3, none, 1, 0, 50⟩], {3}, []⟩ ⟨3, none, 1, 0, 50⟩ [] rfl).1 (by decide),
   (C7_pop_defer 10 ⟨[⟨4, none, 1, 0, 5⟩], {4}, []⟩ ⟨4, none, 1, 0, 5⟩ [] rfl).2 (by decide)⟩

/-- C8: a lock refresh by a worker that is not the stored owner returns false
and leaves the lease (value and TTL) unchanged, and a release by a non-owner
leaves it unchanged; a release by the owner deletes the key, and a refresh by
the owner keeps the value and only resets the TTL. -/
theorem C8_lease_owner_only (ttl : Nat) (ls : Lease) (w : String) :
    ((∀ v t, ls = some (v, t) → v ≠ w) →
      refresh_lock ttl ls w = (false, ls) ∧ release_lock ls w = ls) ∧
    (∀ t, ls = some (w, t) →
      release_lock ls w = none ∧ refresh_lock ttl ls w = (true, some (w, ttl))) := by
  constructor
  · intro h
    cases ls with
    | none => simp [refresh_lock, release_lock]
    | some p =>
      obtain ⟨v, t⟩ := p
      have hv : v ≠ w := h v t rfl
      simp [refresh_lock, release_lock, hv]
  · intro t h
    subst h
    simp [refresh_lock, release_lock]

theorem C8_witness :
    (refresh_lock 60 (some ("a", 30)) "b" = (false, some ("a", 30)) ∧
      release_lock (some ("a", 30)) "b" = some ("a", 30)) ∧
    (release_lock (some ("b", 30)) "b" = none ∧
      refresh_lock 60 (some ("b", 30)) "b" = (true, some ("b", 60))) :=
  ⟨(C8_lease_owner_only 60 (some ("a", 30)) "b").1
     (by
       intro v t hvt
       simp only [Option.some.injEq, Prod.mk.injEq] at hvt
       obtain ⟨h1, h2⟩ := hvt
       subst h1
       decide),
   (C8_lease_owner_only 60 (some ("b", 30)) "b").2 30 rfl⟩

/-- C9: the webhook handler checks the HMAC signature before parsing the
body: a missing header, a header carrying no `sha256=` prefix, or a digest
mismatch each make `verify_signature` false and the response 401 whatever the
body, and a 400 response arises only when the signature verified and the
body failed to parse. -/
theorem C9_signature_before_parse (mac : String → String → String) (parse : String → Bool)
    (secret body : String) (sig : Option String) :
    (verify_signature mac secret body sig = false →
      webhook_status mac parse secret body sig = 401) ∧
    (sig = none → verify_signature mac secret body sig = false) ∧
    (∀ s, sig = some s → "sha256=".toList.isPrefixOf s.toList = false →
      verify_signature mac secret body sig = false) ∧
    (∀ r, sig = some ("sha256=" ++ r) → mac secret body ≠ r →
      verify_signature mac secret body sig = false) ∧
    (webhook_status mac parse secret body sig = 400 →
      verify_signature mac secret body sig = true ∧ parse body = false) := by
  refine ⟨?_, ?_, ?_, ?_, ?_⟩
  · intro h
    simp [webhook_status, h]
  · intro h
    subst h
    rfl
  · intro s hs hpre
    subst hs
    by_cases hemp : s = ""
    · simp [verify_signature, hemp]
    · rw [verify_signature]
      simp only [hemp, if_false]
      cases hsplit : splitEq1 s.toList with
      | none => rfl
      | some p =>
        obtain ⟨a, b⟩ := p
        obtain ⟨hl, hzero⟩ := splitEq1_some hsplit
        have ha : a ≠ "sha256".toList := by
          intro hcon
          subst hcon
          have hpref : "sha256=".toList.isPrefixOf s.toList = true := by
            rw [ List.isPrefixOf_iff_prefix]
            exact ⟨b, by rw [hl]; rfl⟩
          rw [hpref] at hpre
          exact Bool.true_eq_false.mp hpre
        have hbeq : (a == "sha256".toList) = false := by
          rw [beq_eq_false_iff_ne]
          exact ha
        show (a == "sha256".toList && (mac secret body).toList == b) = false
        rw [hbeq, Bool.false_and]
  · intro r hr hne
    subst hr
    have hda : ("sha256=" ++ r).toList = "sha256=".toList ++ r.toList :=
      String.data_append "sha256=" r
    have hkey : ("sha256=" ++ r) ≠ "" := by
      intro hcon
      have h2 : ("sha256=" ++ r).toList = ("" : String).toList := congrArg String.toList hcon
      rw [hda] at h2
      have h3 := congrArg List.length h2
      rw [List.length_append] at h3
      have h7 : ("sha256=".toList).length = 7 := rfl
      have h0 : (("" : String).toList).length = 0 := rfl
      omega
    rw [verify_signature]
    simp only [hkey, if_false]
    have htl : ("sha256=" ++ r).toList
        = 's' :: 'h' :: 'a' :: '2' :: '5' :: '6' :: '=' :: r.toList := by
      rw [hda]
      rfl
    rw [htl]
    have hsplit : splitEq1 ('s' :: 'h' :: 'a' :: '2' :: '5' :: '6' :: '=' :: r.toList)
        = some ("sha256".toList, r.toList) := by
      simp [splitEq1]
    rw [hsplit]
    have hmac : ((mac secret body).toList == r.toList) = false := by
      rw [beq_eq_false_iff_ne]
      intro hcon
      exact hne (String.ext hcon)
    show ("sha256".toList == "sha256".toList && (mac secret body).toList == r.toList) = false
    rw [hmac, Bool.and_false]
  · intro h
    rw [webhook_status] at h
    by_cases h1 : secret = "" ∨ verify_signature mac secret body sig = false
    · rw [if_pos h1] at h
      omega
    · rw [if_neg h1] at h
      push_neg at h1
      refine ⟨by simpa using h1.2, ?_⟩
      by_cases h2 : parse body = false
      · exact h2
      · rw [if_neg h2] at h
        omega

theorem C9_witness :
    webhook_status macC parseC "s" "b" none = 401 ∧
    verify_signature macC "s" "b" (some ("sha256=" ++ "beef")) = false := by
  constructor
  · exact (C9_signature_before_parse macC parseC "s" "b" none).1
      ((C9_signature_before_parse macC parseC "s" "b" none).2.1 rfl)
  · exact (C9_signature_before_parse macC parseC "s" "b" (some ("sha256=" ++ "beef"))).2.2.2.1
      "beef" rfl (by decide)

/-- C10: a non-deferred pop removes the PR number from the dedupe set at pop
time, so while the popped item is being processed an enqueue of the same
number is not deduplicated: it returns the enqueued result `true` and appends
a second item carrying that number. -/
theorem C10_inflight_not_deduped (now now2 : Nat) (st : QState) (item : Item)
    (tl : List Item) (sender : Option String)
    (hhead : st.items = item :: tl) (hready : item.not_before ≤ now) :
    (pop now st).1 = some item ∧
    item.number ∉ (pop now st).2.dedupe ∧
    (enqueue now2 (pop now st).2 item.number sender 0 0).1 = true ∧
    (enqueue now2 (pop now st).2 item.number sender 0 0).2.items
      = tl ++ [⟨item.number, sender, now2, 0, 0⟩] := by
  obtain ⟨its, de, dl⟩ := st
  simp only at hhead
  subst hhead
  rw [pop_cons_ready now item tl de dl hready]
  simp [enqueue, Finset.not_mem_erase]

theorem C10_witness :
    (pop 10 ⟨[⟨6, none, 2, 0, 0⟩], {6}, []⟩).1 = some ⟨6, none, 2, 0, 0⟩ ∧
    (6 : Nat) ∉ (pop 10 ⟨[⟨6, none, 2, 0, 0⟩], {6}, []⟩).2.dedupe ∧
    (enqueue 11 (pop 10 ⟨[⟨6, none, 2, 0, 0⟩], {6}, []⟩).2 6 none 0 0).1 = true ∧
    (enqueue 11 (pop 10 ⟨[⟨6, none, 2, 0, 0⟩], {6}, []⟩).2 6 none 0 0).2.items
      = [] ++ [⟨6, none, 11, 0, 0⟩] :=
  C10_inflight_not_deduped 10 11 ⟨[⟨6, none, 2, 0, 0⟩], {6}, []⟩ ⟨6, none, 2, 0, 0⟩ []
    none rfl (by decide)

end AutoMerge
